import Mathlib

/-!
Verification of the waffle-iron control API (`control-api.py`): a shallow
embedding of the operation gate (`run_compose`) and the HTTP façade
(`Handler.do_GET` / `Handler.do_POST`), together with theorems about the
single-flight guard, the environment overlay, and the request/response
contract.

The external world (the process environment and the outcomes of the two
subprocess invocations) is modelled by an explicit `World` record; each
subprocess call either completes with a return code and captured streams
or raises an exception carrying its message, matching
`subprocess.run(..., capture_output=True, text=True, timeout=...)`.
-/

namespace ControlApi

/-- A process environment, modelled as an association list of variable
names to values (`os.environ` and its copies). Lookup takes the first
binding of a key. -/
abbrev Env := List (String × String)

/-- Dictionary lookup: `env.get(k)` / `k in env`. -/
def envGet (e : Env) (k : String) : Option String :=
  (e.find? (fun p => p.1 == k)).map (fun p => p.2)

/-- Dictionary update `env[k] = v`: the new binding shadows any old one;
lookups of other keys are unchanged. -/
def envSet (e : Env) (k v : String) : Env :=
  (k, v) :: e.filter (fun p => p.1 != k)

/-- Outcome of one `subprocess.run` call: either the child completed
(within the timeout) with a return code and captured stdout/stderr, or
the call raised an exception (`TimeoutExpired`, `FileNotFoundError`, any
spawn error) whose `str(e)` is `msg`. -/
inductive ProcOutcome where
  | completed (returncode : Int) (stdout : String) (stderr : String)
  | raised (msg : String)
deriving DecidableEq

/-- The external world one `run_compose` invocation observes: the
directory of the script (fixing the `-f` argument), the inherited
process environment, and the outcomes of the address-discovery command
and of the orchestration command. -/
structure World where
  repoDir : String
  baseEnv : Env
  tailscaleRun : ProcOutcome
  composeRun : ProcOutcome
deriving DecidableEq

/-- The fixed command prefix `["docker", "compose", "-f", REPO_DIR + "/docker-compose.yml"]`. -/
def COMPOSE (repoDir : String) : List String :=
  ["docker", "compose", "-f", repoDir ++ "/docker-compose.yml"]

/-- The address-discovery command `["tailscale", "ip", "-4"]`. -/
def tailscaleCmd : List String := ["tailscale", "ip", "-4"]

/-- The process-wide mutable state: `_running = {"op": None}`. The slot
holds the in-flight operation name, or `none` when idle. -/
structure ServerState where
  running : Option String
deriving DecidableEq

/-- Python truthiness of `_running["op"]`: `None` and the empty string
are falsy, every other string is truthy. -/
def truthy : Option String → Bool
  | none => false
  | some s => !s.isEmpty

/-- The `(ok, output)` pair returned by the gate. -/
structure RunResult where
  ok : Bool
  output : String
deriving DecidableEq

/-- One attempted external-command invocation: the argument vector and
the environment passed to the child. -/
structure Invocation where
  cmd : List String
  env : Env
deriving DecidableEq

/-- What one `run_compose` call produces: the final slot state, the
`(ok, output)` result, and the trace of external commands invoked. -/
structure GateReturn where
  state : ServerState
  result : RunResult
  trace : List Invocation
deriving DecidableEq

/-- The TAILSCALE_IP resolution step (lines 34-44): copy the process
environment; when `TAILSCALE_IP` is absent, run the discovery command
with a 5-second timeout; on exit code 0 use its stripped stdout, on a
non-zero exit use `"127.0.0.1"`. A raised exception propagates (to be
caught by the gate's outer `except`). Returns the environment overlay
and the discovery invocations performed. -/
def resolveEnv (w : World) : Except String (Env × List Invocation) :=
  match envGet w.baseEnv "TAILSCALE_IP" with
  | some _ => Except.ok (w.baseEnv, [])
  | none =>
    match w.tailscaleRun with
    | ProcOutcome.raised msg => Except.error msg
    | ProcOutcome.completed rc out _ =>
      Except.ok
        (envSet w.baseEnv "TAILSCALE_IP" (if rc == 0 then out.trim else "127.0.0.1"),
         [{ cmd := tailscaleCmd, env := w.baseEnv }])

/-- The operation gate `run_compose(args, op_name)` (lines 26-55):
under the lock, reject when the slot is occupied, otherwise claim it;
then resolve the environment overlay, run the compose command with a
300-second timeout, and return `(True, stdout + stderr)` on completion;
any exception is converted to `(False, str(e))`; the `finally` block
clears the slot on every acquired path. -/
def run_compose (w : World) (st : ServerState) (args : List String) (op_name : String) :
    GateReturn :=
  if truthy st.running then
    { state := st
      result := { ok := false, output := "Already running: " ++ st.running.getD "" }
      trace := [] }
  else
    let claimed : ServerState := { running := some op_name }
    match resolveEnv w with
    | Except.error msg =>
      { state := { claimed with running := none }
        result := { ok := false, output := msg }
        trace := [{ cmd := tailscaleCmd, env := w.baseEnv }] }
    | Except.ok (env, tr) =>
      match w.composeRun with
      | ProcOutcome.raised msg =>
        { state := { claimed with running := none }
          result := { ok := false, output := msg }
          trace := tr ++ [{ cmd := COMPOSE w.repoDir ++ args, env := env }] }
      | ProcOutcome.completed _ out err =>
        { state := { claimed with running := none }
          result := { ok := true, output := out ++ err }
          trace := tr ++ [{ cmd := COMPOSE w.repoDir ++ args, env := env }] }

/-- A JSON value, as far as this API's bodies need. -/
inductive JsonVal where
  | jbool (b : Bool)
  | jstr (s : String)
  | jobj (fields : List (String × JsonVal))

/-- An HTTP response: status code and optional JSON body. -/
structure HttpResponse where
  status : Nat
  body : Option JsonVal

/-- The body `{"ok": ok, "output": out}` rendered by `_json`. -/
def jsonResult (r : RunResult) : JsonVal :=
  JsonVal.jobj [("ok", JsonVal.jbool r.ok), ("output", JsonVal.jstr r.output)]

/-- The body `{"error": "not found"}`. -/
def notFoundBody : JsonVal :=
  JsonVal.jobj [("error", JsonVal.jstr "not found")]

/-- What one request handler produces: the final slot state, the
response, and the external commands invoked while handling it. -/
structure HandlerReturn where
  state : ServerState
  response : HttpResponse
  trace : List Invocation

/-- `Handler.do_GET` (lines 77-84): `/status` invokes the gate with
`["ps", "--format", "json"]` named `"status"` and always answers 200;
any other path answers 404 with `{"error": "not found"}`. -/
def do_GET (w : World) (st : ServerState) (path : String) : HandlerReturn :=
  if path == "/status" then
    let r := run_compose w st ["ps", "--format", "json"] "status"
    { state := r.state
      response := { status := 200, body := some (jsonResult r.result) }
      trace := r.trace }
  else
    { state := st
      response := { status := 404, body := some notFoundBody }
      trace := [] }

/-- `Handler.do_POST` (lines 86-100): `/restart-claude` and
`/rebuild-claude` invoke the gate and answer `200 if ok else 409`; any
other path answers 404 with `{"error": "not found"}`. -/
def do_POST (w : World) (st : ServerState) (path : String) : HandlerReturn :=
  if path == "/restart-claude" then
    let r := run_compose w st ["restart", "claude-remote"] "restart"
    { state := r.state
      response := { status := if r.result.ok then 200 else 409
                    body := some (jsonResult r.result) }
      trace := r.trace }
  else if path == "/rebuild-claude" then
    let r := run_compose w st ["up", "--build", "-d", "claude-remote"] "rebuild"
    { state := r.state
      response := { status := if r.result.ok then 200 else 409
                    body := some (jsonResult r.result) }
      trace := r.trace }
  else
    { state := st
      response := { status := 404, body := some notFoundBody }
      trace := [] }

/-- `Handler.do_OPTIONS` (lines 72-75): 204, no body. -/
def do_OPTIONS (st : ServerState) : HandlerReturn :=
  { state := st
    response := { status := 204, body := none }
    trace := [] }

/-! ### Helper lemmas about the gate -/

/-- A busy slot makes the gate return immediately: state unchanged, a
conflict result, and no external invocation. -/
theorem run_compose_busy (w : World) (st : ServerState) (args : List String) (nm : String)
    (h : truthy st.running = true) :
    run_compose w st args nm =
      { state := st
        result := { ok := false, output := "Already running: " ++ st.running.getD "" }
        trace := [] } := by
  simp [run_compose, h]

/-- When the slot is acquired and environment resolution raises, the
gate converts the exception into a failing result. -/
theorem run_compose_resolveError (w : World) (st : ServerState) (args : List String)
    (nm msg : String) (hidle : truthy st.running = false)
    (henv : resolveEnv w = Except.error msg) :
    run_compose w st args nm =
      { state := { running := none }
        result := { ok := false, output := msg }
        trace := [{ cmd := tailscaleCmd, env := w.baseEnv }] } := by
  simp [run_compose, hidle, henv]

/-- When the slot is acquired, the environment resolves, and the compose
command raises (timeout or spawn error), the gate converts the exception
into a failing result. -/
theorem run_compose_raised (w : World) (st : ServerState) (args : List String)
    (nm : String) (env : Env) (tr : List Invocation) (msg : String)
    (hidle : truthy st.running = false)
    (henv : resolveEnv w = Except.ok (env, tr))
    (hc : w.composeRun = ProcOutcome.raised msg) :
    run_compose w st args nm =
      { state := { running := none }
        result := { ok := false, output := msg }
        trace := tr ++ [{ cmd := COMPOSE w.repoDir ++ args, env := env }] } := by
  simp [run_compose, hidle, henv, hc]

/-- When the slot is acquired, the environment resolves, and the compose
command completes within the timeout, the gate returns success with the
concatenated streams, whatever the return code. -/
theorem run_compose_completed (w : World) (st : ServerState) (args : List String)
    (nm : String) (env : Env) (tr : List Invocation) (rc : Int) (out err : String)
    (hidle : truthy st.running = false)
    (henv : resolveEnv w = Except.ok (env, tr))
    (hc : w.composeRun = ProcOutcome.completed rc out err) :
    run_compose w st args nm =
      { state := { running := none }
        result := { ok := true, output := out ++ err }
        trace := tr ++ [{ cmd := COMPOSE w.repoDir ++ args, env := env }] } := by
  simp [run_compose, hidle, henv, hc]

/-- Looking up the key just written by `envSet` yields the new value. -/
theorem envGet_envSet (e : Env) (k v : String) : envGet (envSet e k v) k = some v := by
  simp [envGet, envSet, List.find?]

/-! ### Concrete worlds used by witnesses and counterexamples -/

/-- A world with the address override present and the compose command
exiting 0. -/
def wExitZero : World :=
  { repoDir := "/srv/waffle-iron"
    baseEnv := [("TAILSCALE_IP", "100.64.0.5")]
    tailscaleRun := ProcOutcome.completed 0 "100.64.0.5\n" ""
    composeRun := ProcOutcome.completed 0 "service restarted\n" "" }

/-- A world with the address override present and the compose command
exiting 1 with text on stderr. -/
def wNonzeroExit : World :=
  { repoDir := "/srv/waffle-iron"
    baseEnv := [("TAILSCALE_IP", "100.64.0.5")]
    tailscaleRun := ProcOutcome.completed 0 "100.64.0.5\n" ""
    composeRun := ProcOutcome.completed 1 "" "restart failed" }

/-- A world where the address override is absent and the discovery
command times out (raises). -/
def wDiscoveryTimeout : World :=
  { repoDir := "/srv/waffle-iron"
    baseEnv := [("PATH", "/usr/bin")]
    tailscaleRun := ProcOutcome.raised "discovery timed out after 5 seconds"
    composeRun := ProcOutcome.completed 0 "service restarted\n" "" }

/-- A world where the address override is absent and the discovery
command exits non-zero. -/
def wDiscoveryFails : World :=
  { repoDir := "/srv/waffle-iron"
    baseEnv := [("PATH", "/usr/bin")]
    tailscaleRun := ProcOutcome.completed 1 "" "no tailscale state"
    composeRun := ProcOutcome.completed 0 "service restarted\n" "" }

/-- A world with the address override present where the compose command
times out (raises). -/
def wComposeTimeout : World :=
  { repoDir := "/srv/waffle-iron"
    baseEnv := [("TAILSCALE_IP", "100.64.0.5")]
    tailscaleRun := ProcOutcome.completed 0 "100.64.0.5\n" ""
    composeRun := ProcOutcome.raised "compose timed out after 300 seconds" }

/-- A world with the address override present, used to exhibit the exact
stdout-then-stderr concatenation. -/
def wOutErr : World :=
  { repoDir := "/srv/waffle-iron"
    baseEnv := [("TAILSCALE_IP", "100.64.0.5")]
    tailscaleRun := ProcOutcome.completed 0 "100.64.0.5\n" ""
    composeRun := ProcOutcome.completed 0 "OUT" "ERR" }

/-! ### Claims -/

/-- Claim C4: a gate invocation made while the operation slot is
non-idle (some operation named n is in flight) returns immediately with
ok=false and output exactly "Already running: n", invokes no external
command, and leaves the state as it was — a non-blocking rejection, not
a queue. -/
theorem C4_busy_rejected (w : World) (st : ServerState) (args : List String)
    (nm n : String) (hin : st.running = some n) (hne : n ≠ "") :
    run_compose w st args nm =
      { state := st
        result := { ok := false, output := "Already running: " ++ n }
        trace := [] } := by
  have hne' : n.isEmpty = false := by
    rcases h : n.isEmpty with _ | _
    · rfl
    · exact absurd ((String.isEmpty_iff n).mp h) hne
  have ht : truthy st.running = true := by simp [truthy, hin, hne']
  rw [run_compose_busy w st args nm ht, hin]
  rfl

/-- Witness for C4 at a concrete busy state. -/
theorem C4_busy_rejected_witness :
    run_compose wExitZero { running := some "rebuild" } ["restart", "claude-remote"] "restart" =
      { state := { running := some "rebuild" }
        result := { ok := false, output := "Already running: rebuild" }
        trace := [] } :=
  C4_busy_rejected wExitZero { running := some "rebuild" } ["restart", "claude-remote"]
    "restart" "rebuild" rfl (by decide)

/-- Claim C5: every gate invocation that acquires the slot returns it to
idle on every exit path — completion, compose failure or timeout, and
any exception during environment resolution — so later requests are
never permanently blocked. -/
theorem C5_slot_released (w : World) (st : ServerState) (args : List String)
    (nm : String) (hidle : truthy st.running = false) :
    (run_compose w st args nm).state = { running := none } := by
  rcases henv : resolveEnv w with msg | ⟨env, tr⟩
  · rw [run_compose_resolveError w st args nm msg hidle henv]
  · rcases hc : w.composeRun with ⟨rc, out, err⟩ | msg
    · rw [run_compose_completed w st args nm env tr rc out err hidle henv hc]
    · rw [run_compose_raised w st args nm env tr msg hidle henv hc]

/-- Witness for C5 at a concrete world whose compose command times out. -/
theorem C5_slot_released_witness :
    (run_compose wComposeTimeout { running := none } ["restart", "claude-remote"] "restart").state =
      { running := none } :=
  C5_slot_released wComposeTimeout { running := none } ["restart", "claude-remote"] "restart" rfl

/-- Claim C9: a gate invocation rejected because the slot is occupied
leaves the slot exactly as it was — the in-flight claim is neither
cleared nor overwritten, since the release path runs only after an
acquisition. -/
theorem C9_reject_frame (w : World) (st : ServerState) (args : List String)
    (nm : String) (hbusy : truthy st.running = true) :
    (run_compose w st args nm).state = st := by
  rw [run_compose_busy w st args nm hbusy]

/-- Witness for C9 at a concrete busy state. -/
theorem C9_reject_frame_witness :
    (run_compose wExitZero { running := some "restart" } ["ps", "--format", "json"] "status").state =
      { running := some "restart" } :=
  C9_reject_frame wExitZero { running := some "restart" } ["ps", "--format", "json"]
    "status" rfl

/-- Claim C6: every GET request to /status returns HTTP 200 with a JSON
body of shape containing exactly an "ok" boolean and an "output" string,
whatever the underlying gate result was. -/
theorem C6_status_always_200 (w : World) (st : ServerState) :
    (do_GET w st "/status").response.status = 200 ∧
    ∃ b s, (do_GET w st "/status").response.body =
      some (JsonVal.jobj [("ok", JsonVal.jbool b), ("output", JsonVal.jstr s)]) := by
  refine ⟨rfl, (run_compose w st ["ps", "--format", "json"] "status").result.ok,
    (run_compose w st ["ps", "--format", "json"] "status").result.output, rfl⟩

/-- Claim C7: a GET or POST to any path outside the three routes yields
HTTP 404 with body containing error "not found", no external command is
spawned, and the operation slot is untouched. -/
theorem C7_unknown_route (w : World) (st : ServerState) (path : String)
    (hg : path ≠ "/status") (hp1 : path ≠ "/restart-claude")
    (hp2 : path ≠ "/rebuild-claude") :
    do_GET w st path =
      { state := st
        response := { status := 404, body := some notFoundBody }
        trace := [] } ∧
    do_POST w st path =
      { state := st
        response := { status := 404, body := some notFoundBody }
        trace := [] } := by
  constructor
  · simp [do_GET, hg]
  · simp [do_POST, hp1, hp2]

/-- Witness for C7 at the concrete unmatched path /nonexistent. -/
theorem C7_unknown_route_witness :
    do_GET wExitZero { running := none } "/nonexistent" =
      { state := { running := none }
        response := { status := 404, body := some notFoundBody }
        trace := [] } :=
  (C7_unknown_route wExitZero { running := none } "/nonexistent"
    (by decide) (by decide) (by decide)).1

/-- Claim C1 as stated is false: with the orchestration command exiting
1 (non-zero) within the timeout, the response to POST /restart-claude is
HTTP 200 with ok=true, not HTTP 409 with ok=false. -/
theorem C1_counterexample :
    (do_POST wNonzeroExit { running := none } "/restart-claude").response =
      { status := 200
        body := some (jsonResult { ok := true, output := "restart failed" }) } := by
  rfl

/-- Claim C1 (amended): for POST /restart-claude from an idle slot with
the environment resolving, a compose command that completes within the
timeout yields HTTP 200 with ok=true and the combined output regardless
of its exit code; a timeout or spawn failure (raised) yields HTTP 409
with ok=false carrying the exception text. -/
theorem C1_restart_amended (w : World) (st : ServerState) (env : Env)
    (tr : List Invocation) (hidle : truthy st.running = false)
    (henv : resolveEnv w = Except.ok (env, tr)) :
    (∀ rc out err, w.composeRun = ProcOutcome.completed rc out err →
      (do_POST w st "/restart-claude").response =
        { status := 200
          body := some (jsonResult { ok := true, output := out ++ err }) }) ∧
    (∀ msg, w.composeRun = ProcOutcome.raised msg →
      (do_POST w st "/restart-claude").response =
        { status := 409
          body := some (jsonResult { ok := false, output := msg }) }) := by
  constructor
  · intro rc out err hc
    simp [do_POST,
      run_compose_completed w st ["restart", "claude-remote"] "restart" env tr rc out err
        hidle henv hc]
  · intro msg hc
    simp [do_POST,
      run_compose_raised w st ["restart", "claude-remote"] "restart" env tr msg
        hidle henv hc]

/-- Witness for the amended C1 at a concrete non-zero exit. -/
theorem C1_restart_amended_witness :
    (do_POST wNonzeroExit { running := none } "/restart-claude").response =
      { status := 200
        body := some (jsonResult { ok := true, output := "" ++ "restart failed" }) } :=
  (C1_restart_amended wNonzeroExit { running := none } wNonzeroExit.baseEnv [] rfl rfl).1
    1 "" "restart failed" rfl

/-- Claim C2 as stated is false: with the override absent and the
discovery command raising (here: a timeout), the gate does not fall back
to 127.0.0.1 — it returns ok=false with the exception text and the
lifecycle command is never invoked, so the operation fails because of
address resolution. -/
theorem C2_counterexample :
    (run_compose wDiscoveryTimeout { running := none }
        ["restart", "claude-remote"] "restart").result =
      { ok := false, output := "discovery timed out after 5 seconds" } ∧
    (run_compose wDiscoveryTimeout { running := none }
        ["restart", "claude-remote"] "restart").trace =
      [{ cmd := tailscaleCmd, env := wDiscoveryTimeout.baseEnv }] := by
  exact ⟨rfl, rfl⟩

/-- Claim C2 (amended): with the override absent, the fallback to
127.0.0.1 happens exactly when the discovery command completes with a
non-zero exit code — then the lifecycle command is still invoked, with
TAILSCALE_IP bound to 127.0.0.1 in its environment overlay; when the
discovery step raises (timeout or missing tool), the gate instead
returns ok=false with the exception text and the lifecycle command is
not invoked. -/
theorem C2_fallback_amended (w : World) (st : ServerState) (args : List String)
    (nm : String) (hidle : truthy st.running = false)
    (hno : envGet w.baseEnv "TAILSCALE_IP" = none) :
    (∀ rc out err, w.tailscaleRun = ProcOutcome.completed rc out err → rc ≠ 0 →
      ∃ inv, (run_compose w st args nm).trace =
          [{ cmd := tailscaleCmd, env := w.baseEnv }, inv] ∧
        inv.cmd = COMPOSE w.repoDir ++ args ∧
        envGet inv.env "TAILSCALE_IP" = some "127.0.0.1") ∧
    (∀ msg, w.tailscaleRun = ProcOutcome.raised msg →
      (run_compose w st args nm).result = { ok := false, output := msg } ∧
      (run_compose w st args nm).trace =
        [{ cmd := tailscaleCmd, env := w.baseEnv }]) := by
  constructor
  · intro rc out err hts hrc
    have hrc' : (rc == 0) = false := by simp [hrc]
    have henv : resolveEnv w = Except.ok
        (envSet w.baseEnv "TAILSCALE_IP" "127.0.0.1",
         [{ cmd := tailscaleCmd, env := w.baseEnv }]) := by
      simp [resolveEnv, hno, hts, hrc']
    refine ⟨{ cmd := COMPOSE w.repoDir ++ args
              env := envSet w.baseEnv "TAILSCALE_IP" "127.0.0.1" },
      ?_, rfl, envGet_envSet _ _ _⟩
    rcases hc : w.composeRun with ⟨rc2, out2, err2⟩ | msg
    · rw [run_compose_completed w st args nm _ _ rc2 out2 err2 hidle henv hc]
      rfl
    · rw [run_compose_raised w st args nm _ _ msg hidle henv hc]
      rfl
  · intro msg hts
    have henv : resolveEnv w = Except.error msg := by
      simp [resolveEnv, hno, hts]
    rw [run_compose_resolveError w st args nm msg hidle henv]
    exact ⟨rfl, rfl⟩

/-- Witness for the amended C2 at a concrete non-zero discovery exit. -/
theorem C2_fallback_amended_witness :
    ∃ inv, (run_compose wDiscoveryFails { running := none }
        ["restart", "claude-remote"] "restart").trace =
        [{ cmd := tailscaleCmd, env := wDiscoveryFails.baseEnv }, inv] ∧
      inv.cmd = COMPOSE wDiscoveryFails.repoDir ++ ["restart", "claude-remote"] ∧
      envGet inv.env "TAILSCALE_IP" = some "127.0.0.1" :=
  (C2_fallback_amended wDiscoveryFails { running := none }
    ["restart", "claude-remote"] "restart" rfl rfl).1
    1 "" "no tailscale state" rfl (by decide)

/-- Claim C3: a gate invocation that acquires the slot and whose compose
command completes within the timeout returns ok=true with the combined
stdout and stderr, for every exit code — non-zero included. -/
theorem C3_ok_regardless_of_exit (w : World) (st : ServerState) (args : List String)
    (nm : String) (env : Env) (tr : List Invocation)
    (hidle : truthy st.running = false)
    (henv : resolveEnv w = Except.ok (env, tr)) :
    ∀ rc out err, w.composeRun = ProcOutcome.completed rc out err →
      (run_compose w st args nm).result = { ok := true, output := out ++ err } := by
  intro rc out err hc
  rw [run_compose_completed w st args nm env tr rc out err hidle henv hc]

/-- Witness for C3 at a concrete exit code 1. -/
theorem C3_ok_regardless_of_exit_witness :
    (run_compose wNonzeroExit { running := none }
        ["restart", "claude-remote"] "restart").result =
      { ok := true, output := "" ++ "restart failed" } :=
  C3_ok_regardless_of_exit wNonzeroExit { running := none }
    ["restart", "claude-remote"] "restart" wNonzeroExit.baseEnv [] rfl rfl
    1 "" "restart failed" rfl

/-- Claim C8: every failure inside an acquired gate invocation — an
environment-resolution exception or a compose exception (timeout, spawn
error) — is converted at the gate boundary into the pair ok=false with
the exception text, and the façade decides the HTTP status solely from
the returned ok value. -/
theorem C8_failures_converted (w : World) (st : ServerState) (args : List String)
    (nm : String) (hidle : truthy st.running = false) :
    (∀ msg, resolveEnv w = Except.error msg →
      (run_compose w st args nm).result = { ok := false, output := msg }) ∧
    (∀ env tr msg, resolveEnv w = Except.ok (env, tr) →
        w.composeRun = ProcOutcome.raised msg →
      (run_compose w st args nm).result = { ok := false, output := msg }) ∧
    (do_POST w st "/restart-claude").response.status =
      (if (run_compose w st ["restart", "claude-remote"] "restart").result.ok
        then 200 else 409) := by
  refine ⟨?_, ?_, ?_⟩
  · intro msg henv
    rw [run_compose_resolveError w st args nm msg hidle henv]
  · intro env tr msg henv hc
    rw [run_compose_raised w st args nm env tr msg hidle henv hc]
  · rfl

/-- Witness for C8 at a concrete compose timeout. -/
theorem C8_failures_converted_witness :
    (run_compose wComposeTimeout { running := none }
        ["restart", "claude-remote"] "restart").result =
      { ok := false, output := "compose timed out after 300 seconds" } :=
  (C8_failures_converted wComposeTimeout { running := none }
    ["restart", "claude-remote"] "restart" rfl).2.1
    wComposeTimeout.baseEnv [] "compose timed out after 300 seconds" rfl rfl

/-- Claim C10: when the compose command completes within the timeout,
the returned output is exactly its entire stdout followed by its entire
stderr, concatenated in that order with no separator. -/
theorem C10_output_concat (w : World) (st : ServerState) (args : List String)
    (nm : String) (env : Env) (tr : List Invocation) (rc : Int) (out err : String)
    (hidle : truthy st.running = false)
    (henv : resolveEnv w = Except.ok (env, tr))
    (hc : w.composeRun = ProcOutcome.completed rc out err) :
    (run_compose w st args nm).result.output = out ++ err := by
  rw [run_compose_completed w st args nm env tr rc out err hidle henv hc]

/-- Witness for C10: stdout OUT and stderr ERR produce output OUTERR. -/
theorem C10_output_concat_witness :
    (run_compose wOutErr { running := none }
        ["restart", "claude-remote"] "restart").result.output = "OUT" ++ "ERR" :=
  C10_output_concat wOutErr { running := none } ["restart", "claude-remote"] "restart"
    wOutErr.baseEnv [] 0 "OUT" "ERR" rfl rfl rfl

end ControlApi
